import Mathlib

/-!
Shallow embedding of `src/kernel/arch/cpu.c` (MSEOS): boot-time CPU
identification and capability probing.

The hardware is modelled as a pure environment `CpuEnv` providing the
`cpuid` instruction (leaf → four 32-bit output registers) and `rdmsr`
(address → (lo, hi) halves).  Each C function is translated into a Lean
function over this environment; side effects (cpuid calls, MSR reads, log
lines) are made explicit as an `Event` trace in execution order, and the
module's five global feature flags are threaded as an explicit `CpuFlags`
record (all flags are `false` at load, as in the C globals).
-/

namespace MSEOS

/-- The four 32-bit output registers of one `cpuid` invocation
(`eax`, `ebx`, `ecx`, `edx` in the C source). -/
structure CpuidResult where
  eax : Nat
  ebx : Nat
  ecx : Nat
  edx : Nat
deriving DecidableEq

/-- Truncation to 32 bits: the value of a C `uint32_t`. -/
def u32 (n : Nat) : Nat := n % 4294967296

/-- The processor model: what the `cpuid` and `rdmsr` instructions return.
`msr` returns the pair `(lo, hi)` as in `msr_get(msr, &lo, &hi)`. -/
structure CpuEnv where
  cpuid : Nat → CpuidResult
  msr : Nat → Nat × Nat

/-- The `cpuid` wrapper from the source (`static void cpuid(...)`): issues the
identification instruction; all registers are `uint32_t`. -/
def cpuid (env : CpuEnv) (leaf : Nat) : CpuidResult :=
  let r := env.cpuid (u32 leaf)
  ⟨u32 r.eax, u32 r.ebx, u32 r.ecx, u32 r.edx⟩

/-- The `msr_get` primitive (`rdmsr`): returns the two 32-bit halves
`(lo, hi)` of the model-specific register `msr`. -/
def msr_get (env : CpuEnv) (msr : Nat) : Nat × Nat :=
  let p := env.msr (u32 msr)
  (u32 p.1, u32 p.2)

/-- The module's global feature flags
(`acpi_msrs_support`, `mmx_support`, `sse2_support`, `avx_support`,
`rdrnd_support` in the C source) — the complete Feature Flag State
stored by the module.  Note the source stores no flag for FPU or XSAVE:
those bits are only logged. -/
structure CpuFlags where
  acpi_msrs_support : Bool
  mmx_support : Bool
  sse2_support : Bool
  avx_support : Bool
  rdrnd_support : Bool
deriving DecidableEq

/-- The flag state at module load: all five globals are initialised `false`. -/
def initFlags : CpuFlags :=
  ⟨false, false, false, false, false⟩

/-- One diagnostic log line (the `LOG`/`fb_printf` calls of the source,
identified by which call site produced them, with the formatted payload
where a claim depends on it). -/
inductive LogLine where
  | fpu
  | thermalMsr
  | temperature (t : Nat)
  | mmx
  | sse2
  | thermalControl
  | avx
  | xsave
  | rdrnd
  | maxExtended (v : Nat)
  | msrRegs
  | pae
  | mce
  | apic
  | syscallAmd
  | syscall
  | amd64
  | sse4a
  | misalignedSse
  | mcaRecovery
  | swErrRecovery
  | tempSensor
  | thermReg
  | htc
  | stc
  | clockMul
  | centaur (v : Nat)
  | manufacturer (s : List Nat)
  | brand (s : List Nat)
  | cacheInfo (lsize assoc cache : Nat)
  | amdEggs (s : List (Option Nat))
  | amdModel (v : Nat)
  | amdFamily (v : Nat)
deriving DecidableEq

/-- One observable step of the module: a `cpuid` invocation, a privileged
MSR read, or a log line, in execution order. -/
inductive Event where
  | cpuidCall (leaf : Nat)
  | msrRead (addr : Nat)
  | log (l : LogLine)
deriving DecidableEq

/-- The little-endian bytes of a 32-bit value, as `tool_memcpy` lays a
`uint32_t` out in memory (x86 is little-endian). -/
def bytesOf (n : Nat) : List Nat :=
  [n % 256, n / 256 % 256, n / 65536 % 256, n / 16777216 % 256]

/-- `get_cpu_temperature`: reads MSR `0x19C`, combines the halves as
`((uint64_t)hi << 32) | lo`, shifts right 16 and divides by 256.
Returns the computed temperature and the trace of the read. -/
def get_cpu_temperature (env : CpuEnv) : Nat × List Event :=
  let lo := (msr_get env 0x19C).1
  let hi := (msr_get env 0x19C).2
  let temp := (hi <<< 32) ||| lo
  let temperature := (temp >>> 16) / 256
  (temperature, [Event.msrRead 0x19C])

/-- `l2_cache`: issues leaf `0x80000006` and logs line size (`ecx & 0xFF`),
associativity code (`(ecx >> 12) & 0x07`) and cache size
(`(ecx >> 16) & 0xFFFF`). -/
def l2_cache (env : CpuEnv) : List Event :=
  let r := cpuid env 0x80000006
  let lsize := r.ecx &&& 0xFF
  let assoc := (r.ecx >>> 12) &&& 0x07
  let cache := (r.ecx >>> 16) &&& 0xFFFF
  [Event.cpuidCall 0x80000006, Event.log (LogLine.cacheInfo lsize assoc cache)]

/-- The 13-byte `eggs_string` buffer of `do_amd`: `tool_memcpy` fills
indices 0–11 with the 12 raw bytes of `eggs[0..2]` (that is, `eax`, `ebx`,
`ecx` of leaf `0x8FFFFFFF`); index 12 is declared but never written by the
source, modelled here as `none` (indeterminate stack contents). -/
def eggs_string (env : CpuEnv) : List (Option Nat) :=
  let eggs := cpuid env 0x8FFFFFFF
  ((bytesOf eggs.eax ++ bytesOf eggs.ebx ++ bytesOf eggs.ecx).map some) ++ [none]

/-- `do_amd`: issues the vendor-proprietary leaf `0x8FFFFFFF`, copies 12
raw bytes into `eggs_string`, re-queries leaf 1 and extracts
`cpu_model = (eax >> 4) & 0x0F` and `cpu_family = (eax >> 8) & 0x0F`,
then logs the tag, model and family. -/
def do_amd (env : CpuEnv) : List Event :=
  let r := cpuid env 1
  let cpu_model := (r.eax >>> 4) &&& 0x0F
  let cpu_family := (r.eax >>> 8) &&& 0x0F
  [Event.cpuidCall 0x8FFFFFFF, Event.cpuidCall 1,
   Event.log (LogLine.amdEggs (eggs_string env)),
   Event.log (LogLine.amdModel cpu_model),
   Event.log (LogLine.amdFamily cpu_family)]

/-- The 13-byte `manufacturer_string` of `brandname`: the call
`cpuid(0, &manufacturer[3], &manufacturer[0], &manufacturer[2],
&manufacturer[1])` stores `ebx` into `manufacturer[0]`, `edx` into
`manufacturer[1]` and `ecx` into `manufacturer[2]`, so the copied 12 bytes
are the bytes of `ebx`, then `edx`, then `ecx`; byte 12 is explicitly set
to 0 (`manufacturer_string[12] = 0`). -/
def manufacturer_string (env : CpuEnv) : List Nat :=
  let m := cpuid env 0
  bytesOf m.ebx ++ bytesOf m.edx ++ bytesOf m.ecx ++ [0]

/-- The 48 data bytes of `brand_string` when populated: the twelve
registers of leaves `0x80000002`–`0x80000004`, each laid out
little-endian, in call order `eax`, `ebx`, `ecx`, `edx`. -/
def brand_string (env : CpuEnv) : List Nat :=
  let b2 := cpuid env 0x80000002
  let b3 := cpuid env 0x80000003
  let b4 := cpuid env 0x80000004
  bytesOf b2.eax ++ bytesOf b2.ebx ++ bytesOf b2.ecx ++ bytesOf b2.edx ++
  bytesOf b3.eax ++ bytesOf b3.ebx ++ bytesOf b3.ecx ++ bytesOf b3.edx ++
  bytesOf b4.eax ++ bytesOf b4.ebx ++ bytesOf b4.ecx ++ bytesOf b4.edx ++ [0]

/-- `brandname`: issues leaf 0 and logs the manufacturer string; issues
leaf `0x80000000`; if the reported maximum `eax` is at least `0x80000004`,
issues the three brand leaves, copies their 48 bytes and logs the brand
string (otherwise the brand buffer is never populated, modelled `none`);
finally, if `manufacturer[0]` (= `ebx` of leaf 0) equals `0x68747541`
("Auth"), calls `do_amd`.  Returns the brand buffer and the event trace. -/
def brandname (env : CpuEnv) : Option (List Nat) × List Event :=
  let m := cpuid env 0
  let ev1 := [Event.cpuidCall 0, Event.log (LogLine.manufacturer (manufacturer_string env))]
  let e := cpuid env 0x80000000
  let brandVal :=
    if 0x80000004 ≤ e.eax then some (brand_string env) else (none : Option (List Nat))
  let brandEv :=
    if 0x80000004 ≤ e.eax then
      [Event.cpuidCall 0x80000002, Event.cpuidCall 0x80000003, Event.cpuidCall 0x80000004,
       Event.log (LogLine.brand (brand_string env))]
    else []
  let ev4 := if m.ebx = 0x68747541 then do_amd env else []
  (brandVal, ev1 ++ [Event.cpuidCall 0x80000000] ++ brandEv ++ ev4)

/-- `cpu_init`: the orchestrator.  Follows the C source statement by
statement: queries leaf 1, logs/sets flags from `edx` bits 0, 22, 23, 25
(reading MSR `0x19C` for the temperature when bit 22 is set), re-queries
leaf 1 and decodes `edx` bit 29 and `ecx` bits 28, 26, 30; then queries
`0x80000000` (logging the reported maximum), `0x80000001`, `0x80000007`
and `0xC0000000` unconditionally, logging each set bit; finally calls
`brandname` and `l2_cache`.  Takes the current global flag state and
returns the updated state together with the full event trace. -/
def cpu_init (env : CpuEnv) (s : CpuFlags) : CpuFlags × List Event :=
  let r1 := cpuid env 1
  let fpuEv := if (r1.edx >>> 0) &&& 1 = 1 then [Event.log LogLine.fpu] else []
  let s1 := if (r1.edx >>> 22) &&& 1 = 1 then { s with acpi_msrs_support := true } else s
  let thermalEv :=
    if (r1.edx >>> 22) &&& 1 = 1 then
      [Event.log LogLine.thermalMsr] ++ (get_cpu_temperature env).2 ++
      [Event.log (LogLine.temperature (get_cpu_temperature env).1)]
    else []
  let s2 := if (r1.edx >>> 23) &&& 1 = 1 then { s1 with mmx_support := true } else s1
  let mmxEv := if (r1.edx >>> 23) &&& 1 = 1 then [Event.log LogLine.mmx] else []
  let s3 := if (r1.edx >>> 25) &&& 1 = 1 then { s2 with sse2_support := true } else s2
  let sse2Ev := if (r1.edx >>> 25) &&& 1 = 1 then [Event.log LogLine.sse2] else []
  let r2 := cpuid env 1
  let tmEv := if (r2.edx >>> 29) &&& 1 = 1 then [Event.log LogLine.thermalControl] else []
  let s4 := if (r2.ecx >>> 28) &&& 1 = 1 then { s3 with avx_support := true } else s3
  let avxEv := if (r2.ecx >>> 28) &&& 1 = 1 then [Event.log LogLine.avx] else []
  let xsaveEv := if (r2.ecx >>> 26) &&& 1 = 1 then [Event.log LogLine.xsave] else []
  let s5 := if (r2.ecx >>> 30) &&& 1 = 1 then { s4 with rdrnd_support := true } else s4
  let rdrndEv := if (r2.ecx >>> 30) &&& 1 = 1 then [Event.log LogLine.rdrnd] else []
  let e80 := cpuid env 0x80000000
  let e81 := cpuid env 0x80000001
  let e81Ev :=
    (if (e81.edx >>> 5) &&& 1 = 1 then [Event.log LogLine.msrRegs] else []) ++
    (if (e81.edx >>> 6) &&& 1 = 1 then [Event.log LogLine.pae] else []) ++
    (if (e81.edx >>> 7) &&& 1 = 1 then [Event.log LogLine.mce] else []) ++
    (if (e81.edx >>> 9) &&& 1 = 1 then [Event.log LogLine.apic] else []) ++
    (if (e81.edx >>> 10) &&& 1 = 1 then [Event.log LogLine.syscallAmd] else []) ++
    (if (e81.edx >>> 11) &&& 1 = 1 then [Event.log LogLine.syscall] else []) ++
    (if (e81.edx >>> 29) &&& 1 = 1 then [Event.log LogLine.amd64] else []) ++
    (if (e81.ecx >>> 6) &&& 1 = 1 then [Event.log LogLine.sse4a] else []) ++
    (if (e81.ecx >>> 7) &&& 1 = 1 then [Event.log LogLine.misalignedSse] else [])
  let e87 := cpuid env 0x80000007
  let e87Ev :=
    (if (e87.ebx >>> 0) &&& 1 = 1 then [Event.log LogLine.mcaRecovery] else []) ++
    (if (e87.ebx >>> 1) &&& 1 = 1 then [Event.log LogLine.swErrRecovery] else []) ++
    (if (e87.edx >>> 0) &&& 1 = 1 then [Event.log LogLine.tempSensor] else []) ++
    (if (e87.edx >>> 3) &&& 1 = 1 then [Event.log LogLine.thermReg] else []) ++
    (if (e87.edx >>> 4) &&& 1 = 1 then [Event.log LogLine.htc] else []) ++
    (if (e87.edx >>> 5) &&& 1 = 1 then [Event.log LogLine.stc] else []) ++
    (if (e87.edx >>> 6) &&& 1 = 1 then [Event.log LogLine.clockMul] else [])
  let c0 := cpuid env 0xC0000000
  let c0Ev := if 0xC0000000 < c0.eax then [Event.log (LogLine.centaur c0.eax)] else []
  (s5,
    [Event.cpuidCall 1] ++ fpuEv ++ thermalEv ++ mmxEv ++ sse2Ev ++
    [Event.cpuidCall 1] ++ tmEv ++ avxEv ++ xsaveEv ++ rdrndEv ++
    [Event.cpuidCall 0x80000000, Event.log (LogLine.maxExtended e80.eax)] ++
    [Event.cpuidCall 0x80000001] ++ e81Ev ++
    [Event.cpuidCall 0x80000007] ++ e87Ev ++
    [Event.cpuidCall 0xC0000000] ++ c0Ev ++
    (brandname env).2 ++ l2_cache env)

/-- A processor model where the baseline leaf reports only bit 0 (FPU) of
`edx` and nothing else anywhere: `cpuid 1 = (0,0,0,1)`, every other leaf
and every MSR reads zero. -/
def envC1 : CpuEnv :=
  ⟨fun leaf => if leaf = 1 then ⟨0, 0, 0, 1⟩ else ⟨0, 0, 0, 0⟩, fun _ => (0, 0)⟩

/-- A processor model reporting maximum extended selector 0 (leaf
`0x80000000` returns `eax = 0`): every leaf and every MSR reads zero. -/
def envLowExt : CpuEnv :=
  ⟨fun _ => ⟨0, 0, 0, 0⟩, fun _ => (0, 0)⟩

/-- A processor model with leaf-1 `edx` bit 22 set (thermal monitor /
ACPI MSRs) but every extended leaf zero — in particular leaf `0x80000001`
`edx` bit 5 (MSR support) is clear. -/
def envC3 : CpuEnv :=
  ⟨fun leaf => if leaf = 1 then ⟨0, 0, 0, 4194304⟩ else ⟨0, 0, 0, 0⟩, fun _ => (0, 0)⟩

/-- A processor model whose thermal-status MSR `0x19C` reads
`lo = 0x25000000`, `hi = 0`. -/
def envTemp : CpuEnv :=
  ⟨fun _ => ⟨0, 0, 0, 0⟩, fun _ => (0x25000000, 0)⟩

/-- A processor model whose leaf `0x80000006` returns `ecx = 0x02002040`. -/
def envCache : CpuEnv :=
  ⟨fun leaf => if leaf = 0x80000006 then ⟨0, 0, 0x02002040, 0⟩ else ⟨0, 0, 0, 0⟩,
   fun _ => (0, 0)⟩

/-- A processor model whose vendor string starts with the AMD signature:
leaf 0 returns `ebx = 0x68747541` ("Auth"); everything else reads zero. -/
def envAmd : CpuEnv :=
  ⟨fun leaf => if leaf = 0 then ⟨0, 0x68747541, 0, 0⟩ else ⟨0, 0, 0, 0⟩, fun _ => (0, 0)⟩


/-! ## Helper lemmas -/

/-- Membership in an `if` between two lists, as a case split on the
condition. -/
theorem mem_ite_iff {α : Type} (a : α) (c : Prop) [Decidable c] (l₁ l₂ : List α) :
    (a ∈ if c then l₁ else l₂) ↔ ((c ∧ a ∈ l₁) ∨ (¬ c ∧ a ∈ l₂)) := by
  split <;> simp [*]

/-- `List.count` over an `if` between two lists, as a case split. -/
theorem count_ite {α : Type} [BEq α] (a : α) (c : Prop) [Decidable c] (l₁ l₂ : List α) :
    (if c then l₁ else l₂).count a = if c then l₁.count a else l₂.count a := by
  split <;> rfl

/-- `u32` values are 32-bit. -/
theorem u32_lt (n : Nat) : u32 n < 2 ^ 32 := by
  have h : u32 n < 4294967296 := Nat.mod_lt _ (by norm_num)
  omega

/-- Masking with `0xFF` is reduction modulo 256. -/
theorem and255 (n : Nat) : n &&& 255 = n % 256 := by
  have h := Nat.and_pow_two_sub_one_eq_mod n 8
  norm_num at h; exact h

/-- Masking with `0x07` is reduction modulo 8. -/
theorem and7 (n : Nat) : n &&& 7 = n % 8 := by
  have h := Nat.and_pow_two_sub_one_eq_mod n 3
  norm_num at h; exact h

/-- Masking with `0x0F` is reduction modulo 16. -/
theorem and15 (n : Nat) : n &&& 15 = n % 16 := by
  have h := Nat.and_pow_two_sub_one_eq_mod n 4
  norm_num at h; exact h

/-- Masking with `0xFFFF` is reduction modulo 65536. -/
theorem and65535 (n : Nat) : n &&& 65535 = n % 65536 := by
  have h := Nat.and_pow_two_sub_one_eq_mod n 16
  norm_num at h; exact h

/-- The temperature formula of the source, rephrased arithmetically:
`(((hi << 32) | lo) >> 16) / 256` equals `(hi * 2^32 + lo) / 2^24`
whenever `lo` fits in 32 bits. -/
theorem temp_formula (lo hi : Nat) (hlo : lo < 2 ^ 32) :
    ((hi <<< 32 ||| lo) >>> 16) / 256 = (hi * 4294967296 + lo) / 16777216 := by
  rw [Nat.shiftLeft_eq, Nat.mul_comm, ← Nat.mul_add_lt_is_or hlo,
    Nat.shiftRight_eq_div_pow, Nat.div_div_eq_div_mul]

/-- The first four bytes of the vendor buffer spell `"Auth"` (`0x41 0x75
0x74 0x68`) exactly when `ebx` of leaf 0 equals `0x68747541`, the
comparison the source performs (little-endian layout). -/
theorem take4_auth_iff (env : CpuEnv) :
    (manufacturer_string env).take 4 = [0x41, 0x75, 0x74, 0x68] ↔
      (cpuid env 0).ebx = 0x68747541 := by
  have hb : (cpuid env 0).ebx < 2 ^ 32 := u32_lt _
  simp only [manufacturer_string, bytesOf]
  constructor
  · intro h
    simp only [List.take, List.cons_append, List.nil_append, List.cons.injEq] at h
    omega
  · intro h
    rw [h]
    rfl

/-! ## Claims -/

/-- C1 (counterexample): the claim asserts that after the probing pass on
baseline output with only bit 0 set, the Feature Flag State "has
`fpu = true`".  The module's Feature Flag State consists of exactly five
stored flags (`acpi_msrs_support`, `mmx_support`, `sse2_support`,
`avx_support`, `rdrnd_support`) — there is no stored fpu flag at all — and
on the concrete input `envC1` (leaf 1 returns `edx = 1`, everything else
zero) the state after the pass still equals the all-false boot state, so
no flag of the state is `true`.  FPU support is only logged. -/
theorem C1_counterexample :
    (cpu_init envC1 initFlags).1.acpi_msrs_support = false ∧
    (cpu_init envC1 initFlags).1.mmx_support = false ∧
    (cpu_init envC1 initFlags).1.sse2_support = false ∧
    (cpu_init envC1 initFlags).1.avx_support = false ∧
    (cpu_init envC1 initFlags).1.rdrnd_support = false ∧
    (cpu_init envC1 initFlags).1 = initFlags ∧
    Event.log LogLine.fpu ∈ (cpu_init envC1 initFlags).2 := by
  decide

/-- C1 (amended): on baseline-leaf output with only bit 0 set
(`edx = 1`, `ecx = 0` for leaf 1), the probing pass logs FPU support but
stores no flag: the Feature Flag State after the pass equals the all-false
boot state — bit 0 is decoded for diagnostic logging only, and the state
contains no fpu flag. -/
theorem C1_amended (env : CpuEnv)
    (hedx : (cpuid env 1).edx = 1) (hecx : (cpuid env 1).ecx = 0) :
    (cpu_init env initFlags).1 = initFlags ∧
    Event.log LogLine.fpu ∈ (cpu_init env initFlags).2 := by
  constructor
  · simp [cpu_init, hedx, hecx, initFlags]
  · simp [cpu_init, hedx, hecx, brandname, do_amd, l2_cache, get_cpu_temperature, mem_ite_iff]

/-- C1 (witness): the amended claim instantiated at the concrete
processor model `envC1`. -/
theorem C1_witness :
    (cpuid envC1 1).edx = 1 ∧ (cpuid envC1 1).ecx = 0 ∧
    ((cpu_init envC1 initFlags).1 = initFlags ∧
     Event.log LogLine.fpu ∈ (cpu_init envC1 initFlags).2) :=
  ⟨by decide, by decide, C1_amended envC1 (by decide) (by decide)⟩

/-- C2 (counterexample): on the concrete model `envLowExt`, leaf
`0x80000000` reports maximum extended selector `0` — far below
`0x80000001` and `0x80000007` — yet the orchestrator still issues both
extended queries, refuting the claim that those queries are only
proceeded with when the reported maximum is at least their selector
values. -/
theorem C2_counterexample :
    (cpuid envLowExt 0x80000000).eax = 0 ∧
    Event.cpuidCall 0x80000001 ∈ (cpu_init envLowExt initFlags).2 ∧
    Event.cpuidCall 0x80000007 ∈ (cpu_init envLowExt initFlags).2 := by
  decide

/-- C2 (amended): the orchestrator queries leaf `0x80000000` and logs the
reported maximum, but then queries the extended leaves `0x80000001` and
`0x80000007` unconditionally, for every processor model and every flag
state — no comparison against the reported maximum guards them (only the
brand-string leaves `0x80000002`–`0x80000004` are gated, see C7). -/
theorem C2_amended (env : CpuEnv) (s : CpuFlags) :
    Event.cpuidCall 0x80000001 ∈ (cpu_init env s).2 ∧
    Event.cpuidCall 0x80000007 ∈ (cpu_init env s).2 := by
  constructor <;>
  simp [cpu_init, brandname, do_amd, l2_cache, get_cpu_temperature, mem_ite_iff]

/-- C2 (witness): the amended claim instantiated at the concrete model
`envLowExt` (which reports maximum extended selector 0). -/
theorem C2_witness :
    Event.cpuidCall 0x80000001 ∈ (cpu_init envLowExt initFlags).2 ∧
    Event.cpuidCall 0x80000007 ∈ (cpu_init envLowExt initFlags).2 :=
  C2_amended envLowExt initFlags

/-- C3 (counterexample): on the concrete model `envC3` (leaf 1 `edx` has
only bit 22 set; every extended leaf reads zero) the thermal-status MSR
`0x19C` is read even though the extended-leaf MSR-support bit
(`0x80000001` `edx` bit 5) is clear and MSR support is never reported
(no such log line exists); moreover the read occurs in the trace before
leaf `0x80000001` is even queried — refuting the claim that every MSR
access is preceded by a successful extended-leaf capability check. -/
theorem C3_counterexample :
    Event.msrRead 0x19C ∈ (cpu_init envC3 initFlags).2 ∧
    Event.log LogLine.msrRegs ∉ (cpu_init envC3 initFlags).2 ∧
    ((cpuid envC3 0x80000001).edx >>> 5) &&& 1 ≠ 1 ∧
    (cpu_init envC3 initFlags).2.indexOf (Event.msrRead 0x19C) <
      (cpu_init envC3 initFlags).2.indexOf (Event.cpuidCall 0x80000001) := by
  decide

/-- C3 (amended): the only MSR access of the module, the thermal-status
read of `0x19C`, is gated solely on bit 22 of the baseline leaf's `edx`
(the ACPI thermal-monitor bit) — it happens if and only if that bit is
set, regardless of the extended-leaf MSR-support bit, which the
orchestrator only decodes for logging later in the pass. -/
theorem C3_amended (env : CpuEnv) (s : CpuFlags) :
    Event.msrRead 0x19C ∈ (cpu_init env s).2 ↔ ((cpuid env 1).edx >>> 22) &&& 1 = 1 := by
  simp [cpu_init, brandname, do_amd, l2_cache, get_cpu_temperature, mem_ite_iff]

/-- C4: the temperature decoder combines the two 32-bit MSR halves as
`(hi << 32) | lo`, shifts right by 16 and integer-divides by 256 — stated
arithmetically, it returns `(hi * 2^32 + lo) / 2^24` — and on the
concrete model `envTemp` with `hi = 0`, `lo = 0x25000000` it returns
exactly 37, after exactly one read of MSR `0x19C`. -/
theorem C4_theorem :
    (∀ env : CpuEnv, (get_cpu_temperature env).1 =
      ((msr_get env 0x19C).2 * 4294967296 + (msr_get env 0x19C).1) / 16777216) ∧
    (get_cpu_temperature envTemp).1 = 37 ∧
    (get_cpu_temperature envTemp).2 = [Event.msrRead 0x19C] := by
  refine ⟨fun env => ?_, by decide, by decide⟩
  simp only [get_cpu_temperature, msr_get]
  exact temp_formula _ _ (u32_lt _)

/-- C5: the cache geometry decoder extracts, from `ecx` (the third output
register) of leaf `0x80000006`, the line size as bits 0–7 (`ecx mod 256`),
the associativity code as bits 12–14 (`ecx / 2^12 mod 8`) and the cache
size in KiB as bits 16–31 (`ecx / 2^16 mod 2^16`), and logs them; on the
concrete model `envCache` with `ecx = 0x02002040` it yields line size 64,
associativity code 2 and cache size 512. -/
theorem C5_theorem :
    (∀ env : CpuEnv,
      Event.log (LogLine.cacheInfo ((cpuid env 0x80000006).ecx % 256)
        ((cpuid env 0x80000006).ecx / 4096 % 8)
        ((cpuid env 0x80000006).ecx / 65536 % 65536)) ∈ l2_cache env) ∧
    Event.log (LogLine.cacheInfo 64 2 512) ∈ l2_cache envCache := by
  refine ⟨fun env => ?_, by decide⟩
  have e1 : (cpuid env 0x80000006).ecx >>> 12 = (cpuid env 0x80000006).ecx / 4096 := by
    rw [Nat.shiftRight_eq_div_pow]
  have e2 : (cpuid env 0x80000006).ecx >>> 16 = (cpuid env 0x80000006).ecx / 65536 := by
    rw [Nat.shiftRight_eq_div_pow]
  simp [l2_cache, and255, and7, and65535, e1, e2]

/-- C6: in a full probing pass, the AMD-specific query (marked by its
unique `cpuid` invocation of the vendor-proprietary leaf `0x8FFFFFFF`,
issued only by `do_amd`) runs exactly once when the first four raw bytes
of the Vendor String equal the AMD signature `"Auth"` and never runs for
any other first-four-byte value; and when invoked, `do_amd` logs the
model nibble (bits 4–7, `eax / 2^4 mod 16`) and the family nibble
(bits 8–11, `eax / 2^8 mod 16`) of the baseline leaf's `eax`. -/
theorem C6_theorem (env : CpuEnv) (s : CpuFlags) :
    ((cpu_init env s).2.count (Event.cpuidCall 0x8FFFFFFF) =
      if (manufacturer_string env).take 4 = [0x41, 0x75, 0x74, 0x68] then 1 else 0) ∧
    Event.log (LogLine.amdModel ((cpuid env 1).eax / 16 % 16)) ∈ do_amd env ∧
    Event.log (LogLine.amdFamily ((cpuid env 1).eax / 256 % 16)) ∈ do_amd env := by
  refine ⟨?_, ?_, ?_⟩
  · simp only [take4_auth_iff]
    simp [cpu_init, brandname, do_amd, l2_cache, get_cpu_temperature, count_ite,
      List.count_append, List.count_cons]
  · have m1 : (cpuid env 1).eax >>> 4 &&& 15 = (cpuid env 1).eax / 16 % 16 := by
      rw [Nat.shiftRight_eq_div_pow, and15]
    simp [do_amd, m1]
  · have m2 : (cpuid env 1).eax >>> 8 &&& 15 = (cpuid env 1).eax / 256 % 16 := by
      rw [Nat.shiftRight_eq_div_pow, and15]
    simp [do_amd, m2]

/-- C7: the 48-byte Brand String is populated (and the three brand leaves
`0x80000002`–`0x80000004` are issued) if and only if the maximum extended
selector reported by leaf `0x80000000` is at least `0x80000004`; for any
smaller reported maximum the brand buffer stays unpopulated (`none`) and
none of the three brand leaves is queried. -/
theorem C7_theorem (env : CpuEnv) :
    ((brandname env).1 =
      if 0x80000004 ≤ (cpuid env 0x80000000).eax then some (brand_string env) else none) ∧
    (Event.cpuidCall 0x80000002 ∈ (brandname env).2 ↔
      0x80000004 ≤ (cpuid env 0x80000000).eax) ∧
    (Event.cpuidCall 0x80000003 ∈ (brandname env).2 ↔
      0x80000004 ≤ (cpuid env 0x80000000).eax) ∧
    (Event.cpuidCall 0x80000004 ∈ (brandname env).2 ↔
      0x80000004 ≤ (cpuid env 0x80000000).eax) ∧
    (Event.log (LogLine.brand (brand_string env)) ∈ (brandname env).2 ↔
      0x80000004 ≤ (cpuid env 0x80000000).eax) := by
  refine ⟨by simp [brandname], ?_, ?_, ?_, ?_⟩ <;>
  simp [brandname, do_amd, mem_ite_iff]

/-- C8: the Vendor String buffer is 13 bytes: bytes 0–3 are the raw bytes
of `ebx`, bytes 4–7 those of `edx`, bytes 8–11 those of `ecx` of the
zero-selector query (the architecture-mandated `ebx`, `edx`, `ecx`
ordering of the three string-carrying output registers), and byte 12 is
the null terminator; the buffer is logged with this layout on every run
of the vendor/brand decoder. -/
theorem C8_theorem (env : CpuEnv) :
    (manufacturer_string env).length = 13 ∧
    (manufacturer_string env).take 4 = bytesOf (cpuid env 0).ebx ∧
    ((manufacturer_string env).drop 4).take 4 = bytesOf (cpuid env 0).edx ∧
    ((manufacturer_string env).drop 8).take 4 = bytesOf (cpuid env 0).ecx ∧
    (manufacturer_string env).drop 12 = [0] ∧
    Event.log (LogLine.manufacturer (manufacturer_string env)) ∈ (brandname env).2 := by
  refine ⟨?_, ?_, ?_, ?_, ?_, ?_⟩
  · simp [manufacturer_string, bytesOf]
  · simp [manufacturer_string, bytesOf]
  · simp [manufacturer_string, bytesOf]
  · simp [manufacturer_string, bytesOf]
  · simp [manufacturer_string, bytesOf]
  · simp [brandname, do_amd, mem_ite_iff]

/-- C9: the probing pass is idempotent on the Feature Flag State: running
`cpu_init` a second time against the same (unchanged) processor model,
starting from the state the first run produced, yields exactly the state
the first run produced — for every processor model and every starting
state. -/
theorem C9_theorem (env : CpuEnv) (s : CpuFlags) :
    (cpu_init env (cpu_init env s).1).1 = (cpu_init env s).1 := by
  by_cases h22 : (cpuid env 1).edx >>> 22 % 2 = 1 <;>
  by_cases h23 : (cpuid env 1).edx >>> 23 % 2 = 1 <;>
  by_cases h25 : (cpuid env 1).edx >>> 25 % 2 = 1 <;>
  by_cases h28 : (cpuid env 1).ecx >>> 28 % 2 = 1 <;>
  by_cases h30 : (cpuid env 1).ecx >>> 30 % 2 = 1 <;>
  simp [cpu_init, h22, h23, h25, h28, h30]

/-- C10: the claim says the 13-byte tag buffer of the AMD query has its
final byte (index 12) written as a null terminator before logging.  The
source never writes `eggs_string[12]` (it only copies 12 bytes into
indices 0–11), so for every processor model byte 12 of the buffer is
indeterminate (`none`) — including on the concrete AMD model `envAmd`,
where the full probing pass does reach `do_amd` and logs the
un-terminated buffer.  This contradicts the evident intent (the sibling
`brandname` explicitly null-terminates both of its string buffers before
logging them): a missing `eggs_string[12] = 0`. -/
theorem C10_theorem :
    (∀ env : CpuEnv, (eggs_string env).length = 13 ∧ (eggs_string env).drop 12 = [none]) ∧
    Event.log (LogLine.amdEggs (eggs_string envAmd)) ∈ (cpu_init envAmd initFlags).2 := by
  refine ⟨fun env => ⟨?_, ?_⟩, by decide⟩
  · simp [eggs_string, bytesOf]
  · simp [eggs_string, bytesOf]

end MSEOS
